import Mathlib

/-!
Verification development for the GemFinder token-evaluation pipeline.

The Python sources (`filter.py`, `scoring.py`, `rug_detector.py`,
`scanner.py`, `main.py`) are shallowly embedded here:

* dictionaries with defaulted keys become a `Token` structure whose fields
  carry the defaulted values (`token.get(k, d)` is the field itself);
* floats become `ℚ`; integer score adjustments become `Int`;
* a value that may be non-numeric where the code checks `isinstance`
  (only the market cap) is modelled by a companion Boolean flag;
* a `try/except` whose body can fail for reasons outside the pure data
  (the top-level handler of `analyze_token_security`, the handler of
  `calculate_score`) is modelled by an explicit error flag on the token;
* Python string containment `needle in hay` becomes `containsSub`,
  and `.lower()` is modelled on ASCII character codes (all the
  denylist/allowlist literals in the source are ASCII);
* interpolated numbers inside log-message strings (f-strings) are
  abstracted to the fixed message text.
-/

namespace GemFinder

/-! ## String helpers (Python `in` and `.lower()`) -/

/-- ASCII lowercase of a character code, as Python `str.lower` acts on ASCII. -/
def lowN (n : Nat) : Nat := if 65 ≤ n ∧ n ≤ 90 then n + 32 else n

/-- Character codes of a string. -/
def strCodes (s : String) : List Nat := s.data.map Char.toNat

/-- Character codes of the ASCII-lowercased string. -/
def lowerCodes (s : String) : List Nat := s.data.map (fun c => lowN c.toNat)

/-- Is `nd` a prefix of `hay` (on codes)? -/
def codesPrefix : List Nat → List Nat → Bool
  | [], _ => true
  | _ :: _, [] => false
  | a :: as, b :: bs => a == b && codesPrefix as bs

/-- Is `nd` a contiguous infix of `hay` (on codes)? Python `nd in hay`. -/
def codesInfix (nd : List Nat) (hay : List Nat) : Bool :=
  match hay with
  | [] => nd.isEmpty
  | _ :: t => codesPrefix nd hay || codesInfix nd t

/-- Python `needle in hay` (case-sensitive substring). -/
def containsSub (hay needle : String) : Bool :=
  codesInfix (strCodes needle) (strCodes hay)

/-- Python `needle.lower() in hay.lower()` (case-insensitive substring). -/
def containsSubLower (hay needle : String) : Bool :=
  codesInfix (lowerCodes needle) (lowerCodes hay)

/-! ## Configuration (`config.py`) -/

def MIN_MARKET_CAP : ℚ := 50000
def MAX_MARKET_CAP : ℚ := 1000000
def MIN_VOLUME_1H : ℚ := 5000
def MIN_VOLUME_GROWTH : ℚ := 15
def WHALE_THRESHOLD : ℚ := 50000
def SCORE_THRESHOLD : ℚ := 45

/-- A risk profile from `config.RISK_PROFILES`. -/
structure RiskProfile where
  min_market_cap : ℚ
  max_market_cap : ℚ
  min_volume_growth : ℚ
  score_threshold : ℚ
  max_tokens_per_scan : Nat
deriving DecidableEq

/-! ## The token record

Fields are the values the Python dictionary lookups produce after their
defaults are applied (`token.get('market_cap', 0)` and so on). -/

structure Token where
  symbol : String
  name : String
  price_usd : ℚ
  /-- Numeric value of the `market_cap` key when present. -/
  market_cap : ℚ
  /-- Whether the `market_cap` key is present: the source defaults a missing
  key to 0 in some lookups and to 1 in others, see `mcap0` and `mcap1`. -/
  mcap_present : Bool
  /-- Result of `isinstance(market_cap, (int, float))` in `_check_market_cap`;
  `false` models a present but non-numeric value. -/
  mcap_is_numeric : Bool
  volume_24h : ℚ
  volume_1h : ℚ
  price_change_1h : ℚ
  price_change_24h : ℚ
  price_change_7d : ℚ
  liquidity_usd : ℚ
  liquidity_locked : Bool
  additional_info : String
  mock_token : Bool
  contract_address : String
  chain : String
  verified : Bool
  /-- Age in days computed from `created_at` and the current time;
  `none` when the field is absent or unparseable (the inner `except` path). -/
  age_days : Option Int
  is_proxy : Bool
  source : String
  twitter : String
  telegram : String
  homepage : String
  website : String
  market_cap_rank : Option Nat
  /-- `none` models `social_links` not being a dict; `some n` is the count of
  non-empty links in it. -/
  social_links_count : Option Nat
  audit_info : String
  /-- Models an internal exception reaching the top-level handler of
  `analyze_token_security`. -/
  analysis_error : Bool
  /-- Models an internal exception reaching the handler of `calculate_score`. -/
  score_error : Bool
deriving DecidableEq

/-- `token.get('market_cap', 0)`. -/
def mcap0 (t : Token) : ℚ := if t.mcap_present then t.market_cap else 0

/-- `token.get('market_cap', 1)` (used by three of the scorer functions). -/
def mcap1 (t : Token) : ℚ := if t.mcap_present then t.market_cap else 1

/-! ## TokenFilter (`filter.py`) -/

/-- Per-batch statistics dictionary of `TokenFilter`. -/
structure FilterStats where
  total_processed : Nat
  passed_market_cap : Nat
  passed_volume : Nat
  passed_volume_growth : Nat
  passed_all_filters : Nat
deriving DecidableEq

/-- The statistics as initialised in `TokenFilter.__init__`. -/
def initial_filter_stats : FilterStats :=
  { total_processed := 0, passed_market_cap := 0, passed_volume := 0
    passed_volume_growth := 0, passed_all_filters := 0 }

/-- `TokenFilter.reset_stats`: replaces every counter with zero. -/
def reset_stats (_s : FilterStats) : FilterStats := initial_filter_stats

/-- `'trending' in source.lower() or 'detailed' in source.lower()`. -/
def trending_or_detailed (t : Token) : Bool :=
  containsSubLower t.source "trending" || containsSubLower t.source "detailed"

/-- `TokenFilter._check_market_cap`. -/
def check_market_cap (rp : Option RiskProfile) (t : Token) : Bool :=
  if ¬t.mcap_is_numeric = true ∨ mcap0 t ≤ 0 then false
  else
    let minCap : ℚ := match rp with
      | some p => p.min_market_cap
      | none => MIN_MARKET_CAP
    let maxCap : ℚ := match rp with
      | some p => p.max_market_cap
      | none => MAX_MARKET_CAP
    let minCap := if trending_or_detailed t then minCap * (1/2) else minCap
    let maxCap := if trending_or_detailed t then maxCap * 3 else maxCap
    let minCap := if |t.price_change_24h| > 50 then minCap * (3/10) else minCap
    let maxCap := if |t.price_change_24h| > 50 then maxCap * 5 else maxCap
    decide (minCap ≤ mcap0 t ∧ mcap0 t ≤ maxCap)

/-- `TokenFilter._check_volume`. -/
def check_volume (t : Token) : Bool :=
  let base : ℚ :=
    if mcap0 t < 500000 then MIN_VOLUME_1H * (3/10)
    else if mcap0 t < 1000000 then MIN_VOLUME_1H * (1/2)
    else MIN_VOLUME_1H
  if t.volume_24h ≥ base then true
  else if t.volume_1h > 0 ∧ t.volume_1h ≥ base * (1/10) then true
  else if trending_or_detailed t = true ∧ t.volume_24h ≥ base * (1/5) then true
  else false

/-- `TokenFilter._check_volume_growth`. -/
def check_volume_growth (t : Token) : Bool :=
  let g1 : Nat :=
    if t.price_change_1h > MIN_VOLUME_GROWTH * (1/2) then 2
    else if t.price_change_1h > 0 then 1 else 0
  let g2 : Nat :=
    if t.price_change_24h > MIN_VOLUME_GROWTH then 2
    else if t.price_change_24h > MIN_VOLUME_GROWTH * (3/10) then 1 else 0
  let g3 : Nat := if t.price_change_7d > MIN_VOLUME_GROWTH * 2 then 1 else 0
  let g4 : Nat := if t.price_change_7d < 0 ∧ t.price_change_24h > 20 then 2 else 0
  let g5 : Nat := if containsSubLower t.source "trending" then 1 else 0
  let g6 : Nat := if mcap0 t < 200000 ∧ t.price_change_24h > 10 then 1 else 0
  decide (1 ≤ g1 + g2 + g3 + g4 + g5 + g6)

/-- `TokenFilter._check_basic_safety`. -/
def check_basic_safety (t : Token) : Bool :=
  if t.symbol = "" ∨ t.name = "" ∨ t.price_usd = 0 then false
  else if t.price_usd ≤ 0 ∨ t.price_usd > 1000000 then false
  else if t.symbol.length > 20 ∨ t.symbol.length < 2 then false
  else if t.name.length > 100 ∨ t.name.length < 2 then false
  else true

/-- `TokenFilter._passes_all_filters`, with its statistics side effects made
explicit: returns the verdict plus the updated per-stage counters. -/
def passes_all_filters (rp : Option RiskProfile) (stats : FilterStats)
    (t : Token) : Bool × FilterStats :=
  if ¬check_market_cap rp t = true then (false, stats)
  else
    let s1 := { stats with passed_market_cap := stats.passed_market_cap + 1 }
    if ¬check_volume t = true then (false, s1)
    else
      let s2 := { s1 with passed_volume := s1.passed_volume + 1 }
      if ¬check_volume_growth t = true then (false, s2)
      else
        let s3 := { s2 with passed_volume_growth := s2.passed_volume_growth + 1 }
        if ¬check_basic_safety t = true then (false, s3)
        else (true, s3)

/-- The loop body of `TokenFilter.apply_all_filters`. -/
def filter_go (rp : Option RiskProfile) (stats : FilterStats) :
    List Token → List Token × FilterStats
  | [] => ([], stats)
  | t :: rest =>
    let r := passes_all_filters rp stats t
    if r.1 then
      let s2 := { r.2 with passed_all_filters := r.2.passed_all_filters + 1 }
      let tail := filter_go rp s2 rest
      (t :: tail.1, tail.2)
    else
      filter_go rp r.2 rest

/-- `TokenFilter.apply_all_filters`: sets `total_processed` to the batch
length (the only counter it touches before the loop), then filters. -/
def apply_all_filters (rp : Option RiskProfile) (stats : FilterStats)
    (tokens : List Token) : List Token × FilterStats :=
  filter_go rp { stats with total_processed := tokens.length } tokens

/-- The pure verdict of `_passes_all_filters`, without the counters. -/
def passes_all_filters_pure (rp : Option RiskProfile) (t : Token) : Bool :=
  check_market_cap rp t && check_volume t && check_volume_growth t &&
    check_basic_safety t

/-! ### Basic facts about the filter -/

theorem passes_all_filters_fst (rp : Option RiskProfile) (stats : FilterStats)
    (t : Token) :
    (passes_all_filters rp stats t).1 = passes_all_filters_pure rp t := by
  unfold passes_all_filters passes_all_filters_pure
  by_cases h1 : check_market_cap rp t = true <;>
    by_cases h2 : check_volume t = true <;>
      by_cases h3 : check_volume_growth t = true <;>
        by_cases h4 : check_basic_safety t = true <;>
          simp [h1, h2, h3, h4]

theorem filter_go_fst (rp : Option RiskProfile) (tokens : List Token) :
    ∀ stats, (filter_go rp stats tokens).1 =
      tokens.filter (passes_all_filters_pure rp) := by
  induction tokens with
  | nil => intro stats; simp [filter_go]
  | cons t rest ih =>
    intro stats
    rw [List.filter_cons]
    by_cases h : passes_all_filters_pure rp t = true
    · simp only [filter_go, passes_all_filters_fst, h, if_true, ih]
    · simp only [filter_go, passes_all_filters_fst, h, if_false,
        Bool.false_eq_true, ih]

theorem filter_go_passed_all (rp : Option RiskProfile) (tokens : List Token) :
    ∀ stats, (filter_go rp stats tokens).2.passed_all_filters =
      stats.passed_all_filters +
        (tokens.filter (passes_all_filters_pure rp)).length := by
  have hstat : ∀ stats t, ((passes_all_filters rp stats t).2).passed_all_filters
      = stats.passed_all_filters := by
    intro stats t
    unfold passes_all_filters
    by_cases h1 : check_market_cap rp t = true <;>
      by_cases h2 : check_volume t = true <;>
        by_cases h3 : check_volume_growth t = true <;>
          by_cases h4 : check_basic_safety t = true <;>
            simp [h1, h2, h3, h4]
  induction tokens with
  | nil => intro stats; simp [filter_go]
  | cons t rest ih =>
    intro stats
    rw [List.filter_cons]
    by_cases h : passes_all_filters_pure rp t = true
    · simp only [filter_go, passes_all_filters_fst, h, if_true, ih, hstat]
      simp +arith
    · simp only [filter_go, passes_all_filters_fst, h, if_false,
        Bool.false_eq_true, ih, hstat]

theorem filter_go_total (rp : Option RiskProfile) (tokens : List Token) :
    ∀ stats, (filter_go rp stats tokens).2.total_processed =
      stats.total_processed := by
  have hstat : ∀ stats t, ((passes_all_filters rp stats t).2).total_processed
      = stats.total_processed := by
    intro stats t
    unfold passes_all_filters
    by_cases h1 : check_market_cap rp t = true <;>
      by_cases h2 : check_volume t = true <;>
        by_cases h3 : check_volume_growth t = true <;>
          by_cases h4 : check_basic_safety t = true <;>
            simp [h1, h2, h3, h4]
  induction tokens with
  | nil => intro stats; simp [filter_go]
  | cons t rest ih =>
    intro stats
    by_cases h : passes_all_filters_pure rp t = true
    · simp only [filter_go, passes_all_filters_fst, h, if_true, ih, hstat]
    · simp only [filter_go, passes_all_filters_fst, h, if_false,
        Bool.false_eq_true, ih, hstat]

theorem passes_all_filters_snd (rp : Option RiskProfile) (stats : FilterStats)
    (t : Token) :
    (passes_all_filters rp stats t).2 =
      { stats with
        passed_market_cap := stats.passed_market_cap +
          (if check_market_cap rp t then 1 else 0)
        passed_volume := stats.passed_volume +
          (if check_market_cap rp t && check_volume t then 1 else 0)
        passed_volume_growth := stats.passed_volume_growth +
          (if check_market_cap rp t && check_volume t && check_volume_growth t
            then 1 else 0) } := by
  unfold passes_all_filters
  by_cases h1 : check_market_cap rp t = true <;>
    by_cases h2 : check_volume t = true <;>
      by_cases h3 : check_volume_growth t = true <;>
        by_cases h4 : check_basic_safety t = true <;>
          simp [h1, h2, h3, h4]

theorem filter_go_stats (rp : Option RiskProfile) (tokens : List Token) :
    ∀ stats, (filter_go rp stats tokens).2 =
      { total_processed := stats.total_processed
        passed_market_cap := stats.passed_market_cap +
          (tokens.filter (fun t => check_market_cap rp t)).length
        passed_volume := stats.passed_volume +
          (tokens.filter (fun t => check_market_cap rp t && check_volume t)).length
        passed_volume_growth := stats.passed_volume_growth +
          (tokens.filter (fun t => check_market_cap rp t && check_volume t &&
            check_volume_growth t)).length
        passed_all_filters := stats.passed_all_filters +
          (tokens.filter (passes_all_filters_pure rp)).length } := by
  induction tokens with
  | nil => intro stats; simp [filter_go]
  | cons t rest ih =>
    intro stats
    by_cases h : passes_all_filters_pure rp t = true
    · have h4 := h
      unfold passes_all_filters_pure at h4
      rw [Bool.and_eq_true, Bool.and_eq_true, Bool.and_eq_true] at h4
      obtain ⟨⟨⟨ha, hb⟩, hc⟩, hd⟩ := h4
      simp only [filter_go, passes_all_filters_fst, h, if_true, ih,
        passes_all_filters_snd, List.filter_cons, ha, hb, hc,
        passes_all_filters_pure, hd]
      simp [FilterStats.mk.injEq]
      try omega
    · simp only [filter_go, passes_all_filters_fst, h, if_false,
        Bool.false_eq_true, ih, passes_all_filters_snd, List.filter_cons]
      by_cases ha : check_market_cap rp t = true <;>
        by_cases hb : check_volume t = true <;>
          by_cases hc : check_volume_growth t = true <;>
            simp +arith [ha, hb, hc, FilterStats.mk.injEq]

/-! ### A concrete well-formed token used in concrete evaluations -/

/-- A plain token: $100k market cap, $30k daily volume, +30% in 24h,
$2k liquidity, no contract address, no socials. -/
def baseToken : Token :=
  { symbol := "GEM", name := "Gemstone", price_usd := 1
    market_cap := 100000, mcap_present := true, mcap_is_numeric := true
    volume_24h := 30000, volume_1h := 0
    price_change_1h := 0, price_change_24h := 30, price_change_7d := 0
    liquidity_usd := 2000, liquidity_locked := false, additional_info := ""
    mock_token := false, contract_address := "", chain := ""
    verified := false, age_days := none, is_proxy := false, source := ""
    twitter := "", telegram := "", homepage := "", website := ""
    market_cap_rank := none, social_links_count := none, audit_info := ""
    analysis_error := false, score_error := false }

theorem baseToken_passes : passes_all_filters_pure none baseToken = true := by
  have h1 : containsSubLower "" "trending" = false := by decide
  have h2 : containsSubLower "" "detailed" = false := by decide
  have h3 : ¬("GEM" : String) = "" := by decide
  have h4 : ¬("Gemstone" : String) = "" := by decide
  have h5 : ("GEM" : String).length = 3 := by decide
  have h6 : ("Gemstone" : String).length = 8 := by decide
  simp only [passes_all_filters_pure, check_market_cap, check_volume,
    check_volume_growth, check_basic_safety, trending_or_detailed, baseToken,
    mcap0, MIN_MARKET_CAP, MAX_MARKET_CAP, MIN_VOLUME_1H, MIN_VOLUME_GROWTH,
    h1, h2, h3, h4, h5, h6]
  norm_num

/-! ### Claim C7 -/

/-- C7: filtering is deterministic, order-preserving, and idempotent — for
every risk profile and statistics state, `apply_all_filters` returns a
subsequence of its input in the original order, and applying it again to
its own output (from any statistics state) returns that output unchanged. -/
theorem apply_all_filters_order_preserving_idempotent
    (rp : Option RiskProfile) (s1 s2 : FilterStats) (tokens : List Token) :
    ((apply_all_filters rp s1 tokens).1).Sublist tokens ∧
      (apply_all_filters rp s2 (apply_all_filters rp s1 tokens).1).1 =
        (apply_all_filters rp s1 tokens).1 := by
  constructor
  · rw [apply_all_filters, filter_go_fst]
    exact List.filter_sublist tokens
  · rw [apply_all_filters, apply_all_filters, filter_go_fst, filter_go_fst,
      List.filter_filter]
    simp

/-! ### Claim C3 -/

/-- C3 (counterexample): the per-stage pass counters are not reset at the
start of each batch. Processing the one-token batch `[baseToken]` twice in
succession leaves `passed_all_filters` at 2, although only one token of the
second batch passed — the counter does not count "only tokens of that
batch" as the claim states. -/
theorem filter_stats_not_reset_counterexample :
    ((apply_all_filters none
        (apply_all_filters none initial_filter_stats [baseToken]).2
        [baseToken]).2).passed_all_filters = 2 ∧
      ¬((apply_all_filters none
          (apply_all_filters none initial_filter_stats [baseToken]).2
          [baseToken]).2).passed_all_filters = 1 := by
  have hlen : ([baseToken].filter (passes_all_filters_pure none)).length = 1 := by
    simp [List.filter_cons, baseToken_passes]
  have h1 : ∀ s : FilterStats,
      (apply_all_filters none s [baseToken]).2.passed_all_filters =
        s.passed_all_filters + 1 := by
    intro s
    rw [apply_all_filters, filter_go_passed_all, hlen]
  rw [h1, h1]
  simp [initial_filter_stats]

/-- C3 (amended): `apply_all_filters` overwrites only `total_processed` with
the batch length; each of the four per-stage pass counters accumulates on
top of its previous value — after a batch, `passed_market_cap`,
`passed_volume`, `passed_volume_growth` and `passed_all_filters` each equal
their prior value plus the number of this batch's tokens passing the
corresponding stage prefix — so each counts only the current batch exactly
when the statistics were reset (all-zero) beforehand, which the batch
operation never does itself. -/
theorem filter_stats_accumulate_across_batches
    (rp : Option RiskProfile) (stats : FilterStats) (tokens : List Token) :
    (apply_all_filters rp stats tokens).2.passed_market_cap =
        stats.passed_market_cap +
          (tokens.filter (fun t => check_market_cap rp t)).length ∧
      (apply_all_filters rp stats tokens).2.passed_volume =
        stats.passed_volume +
          (tokens.filter (fun t => check_market_cap rp t && check_volume t)).length ∧
      (apply_all_filters rp stats tokens).2.passed_volume_growth =
        stats.passed_volume_growth +
          (tokens.filter (fun t => check_market_cap rp t && check_volume t &&
            check_volume_growth t)).length ∧
      (apply_all_filters rp stats tokens).2.passed_all_filters =
        stats.passed_all_filters + ((apply_all_filters rp stats tokens).1).length ∧
      (apply_all_filters rp stats tokens).2.total_processed = tokens.length ∧
      (apply_all_filters rp (reset_stats stats) tokens).2.passed_market_cap =
        (tokens.filter (fun t => check_market_cap rp t)).length ∧
      (apply_all_filters rp (reset_stats stats) tokens).2.passed_volume =
        (tokens.filter (fun t => check_market_cap rp t && check_volume t)).length ∧
      (apply_all_filters rp (reset_stats stats) tokens).2.passed_volume_growth =
        (tokens.filter (fun t => check_market_cap rp t && check_volume t &&
          check_volume_growth t)).length ∧
      (apply_all_filters rp (reset_stats stats) tokens).2.passed_all_filters =
        ((apply_all_filters rp (reset_stats stats) tokens).1).length := by
  refine ⟨?_, ?_, ?_, ?_, ?_, ?_, ?_, ?_, ?_⟩
  · rw [apply_all_filters, filter_go_stats]
  · rw [apply_all_filters, filter_go_stats]
  · rw [apply_all_filters, filter_go_stats]
  · rw [apply_all_filters, filter_go_passed_all, filter_go_fst]
  · rw [apply_all_filters, filter_go_total]
  · rw [apply_all_filters, filter_go_stats]
    simp [reset_stats, initial_filter_stats]
  · rw [apply_all_filters, filter_go_stats]
    simp [reset_stats, initial_filter_stats]
  · rw [apply_all_filters, filter_go_stats]
    simp [reset_stats, initial_filter_stats]
  · rw [apply_all_filters, filter_go_passed_all, filter_go_fst]
    simp [reset_stats, initial_filter_stats]

/-! ### Claim C8 -/

/-- The market-cap predicate as the specification words it: the configured
band is widened multiplicatively, trending-widen (×0.5 lower, ×3 upper)
first, then volatility-widen (×0.3 lower, ×5 upper) on the already-widened
band, and a non-positive or non-numeric market cap always fails. -/
def check_market_cap_spec (rp : Option RiskProfile) (t : Token) : Bool :=
  let lo : ℚ := match rp with
    | some p => p.min_market_cap
    | none => MIN_MARKET_CAP
  let hi : ℚ := match rp with
    | some p => p.max_market_cap
    | none => MAX_MARKET_CAP
  let lo1 := if trending_or_detailed t then lo * (1/2) else lo
  let hi1 := if trending_or_detailed t then hi * 3 else hi
  let lo2 := if |t.price_change_24h| > 50 then lo1 * (3/10) else lo1
  let hi2 := if |t.price_change_24h| > 50 then hi1 * 5 else hi1
  t.mcap_is_numeric && decide (0 < mcap0 t) &&
    (decide (lo2 ≤ mcap0 t) && decide (mcap0 t ≤ hi2))

/-- C8: the source's market-cap predicate coincides with the specification's
description (fixed widening order, multiplicative composition), and a token
whose market cap is non-numeric or non-positive always fails it. -/
theorem check_market_cap_widening_spec (rp : Option RiskProfile) (t : Token) :
    check_market_cap rp t = check_market_cap_spec rp t ∧
      (t.mcap_is_numeric = false ∨ mcap0 t ≤ 0 →
        check_market_cap rp t = false) := by
  constructor
  · unfold check_market_cap check_market_cap_spec
    cases hb : t.mcap_is_numeric
    · simp [hb]
    · by_cases hm : mcap0 t ≤ 0
      · simp [hb, hm, not_lt.mpr hm]
      · simp [hb, hm, not_le.mp hm, decide_eq_true_eq]
  · intro h
    unfold check_market_cap
    rcases h with h | h
    · simp [h]
    · simp [h]

/-- Witness for C8 at a concrete input: a token whose market cap is present
but non-numeric fails the predicate. -/
theorem check_market_cap_widening_spec_witness :
    check_market_cap none { baseToken with mcap_is_numeric := false } = false :=
  (check_market_cap_widening_spec none
    { baseToken with mcap_is_numeric := false }).2 (Or.inl rfl)

/-! ## TokenScorer (`scoring.py`) -/

/-- The weight dictionary `config.SCORE_WEIGHTS` (all six keys present). -/
structure ScoreWeights where
  market_cap : ℚ
  volume_growth : ℚ
  liquidity_lock : ℚ
  contract_security : ℚ
  whale_activity : ℚ
  social_signals : ℚ
deriving DecidableEq

/-- The concrete weight values of `config.SCORE_WEIGHTS`. -/
def SCORE_WEIGHTS : ScoreWeights :=
  { market_cap := 3/20, volume_growth := 7/20, liquidity_lock := 3/20
    contract_security := 1/10, whale_activity := 1/10, social_signals := 3/20 }

/-- `TokenScorer._score_market_cap`. -/
def score_market_cap (t : Token) : ℚ :=
  if mcap0 t ≤ 0 then 0
  else
    let optimal := (MIN_MARKET_CAP + MAX_MARKET_CAP) / 2
    let distance := |mcap0 t - optimal|
    let maxDistance := MAX_MARKET_CAP - MIN_MARKET_CAP
    max 0 (min 1 (1 - distance / maxDistance))

/-- `TokenScorer._score_volume_growth`. -/
def score_volume_growth (t : Token) : ℚ :=
  let s1 : ℚ :=
    if t.price_change_1h > 0 then min (1/2) (t.price_change_1h / 100) else 0
  let s2 : ℚ :=
    if t.price_change_24h > 0 then min (2/5) (t.price_change_24h / 150) else 0
  let s3 : ℚ :=
    if t.price_change_7d < 0 ∧ t.price_change_24h > 20 then 1/5 else 0
  let s4 : ℚ :=
    if t.volume_24h > 0 ∧ mcap1 t > 0 then
      let r := t.volume_24h / mcap1 t
      if r > 1/10 then min (3/10) (r * 2)
      else if r > 1/20 then min (1/5) (r * 3)
      else if r > 1/100 then min (1/10) (r * 5)
      else 0
    else 0
  max 0 (min 1 (s1 + s2 + s3 + s4))

/-- `TokenScorer._score_liquidity_lock`. -/
def score_liquidity_lock (t : Token) : ℚ :=
  if t.liquidity_usd ≤ 0 then
    if t.mock_token then 1/2 else 3/10
  else
    let mc := mcap1 t
    let r := if mc > 0 then t.liquidity_usd / mc else 0
    if r > 3/10 then 1
    else if r > 3/20 then 4/5
    else if r > 1/20 then 3/5
    else if r > 1/100 then 2/5
    else 1/5

/-- `TokenScorer._score_contract_security`. -/
def score_contract_security (t : Token) : ℚ :=
  let s1 : ℚ :=
    if ¬t.contract_address = "" ∧ t.contract_address.length > 20 then 2/5
    else if ¬t.contract_address = "" then 1/5
    else 0
  let s2 : ℚ := if t.verified then 3/10 else 1/10
  let s3 : ℚ :=
    if t.source = "dexscreener" ∨ t.source = "coingecko" ∨
        t.source = "coingecko_detailed" then 3/10
    else if t.source = "mock_data" then 1/2
    else 1/10
  let s4 : ℚ := if trending_or_detailed t then 1/5 else 0
  max (1/5) (min 1 (s1 + s2 + s3 + s4))

/-- `TokenScorer._score_whale_activity`. -/
def score_whale_activity (t : Token) : ℚ :=
  let mc := mcap1 t
  if mc > 0 then
    let r := t.volume_24h / mc
    if r > 1 then 1
    else if r > 1/2 then 4/5
    else if r > 1/5 then 3/5
    else if r > 1/10 then 1/2
    else 2/5
  else if t.volume_24h > WHALE_THRESHOLD then
    min (4/5) (t.volume_24h / (WHALE_THRESHOLD * 5))
  else 2/5

/-- `TokenScorer._score_social_signals`. Note the Python truthiness test
`if market_cap_rank:` is false both for a missing rank and for rank 0. -/
def score_social_signals (t : Token) : ℚ :=
  let s1 : ℚ := if ¬t.twitter = "" then 3/10 else 0
  let s2 : ℚ := if ¬t.telegram = "" then 3/10 else 0
  let s3 : ℚ := if ¬t.homepage = "" then 1/5 else 0
  let s4 : ℚ := match t.market_cap_rank with
    | none => 0
    | some r =>
      if r = 0 then 0
      else if r ≤ 500 then 2/5
      else if r ≤ 1000 then 3/10
      else if r ≤ 2000 then 1/5
      else 1/10
  let s5 : ℚ :=
    if containsSubLower t.source "trending" then 3/10
    else if containsSubLower t.source "detailed" then 1/5
    else 0
  let s6 : ℚ :=
    if t.price_change_24h > 50 then 3/10
    else if t.price_change_24h > 20 then 1/5
    else 0
  max (3/10) (min 1 (s1 + s2 + s3 + s4 + s5 + s6))

/-- `TokenScorer.calculate_score`: weighted sum of the six sub-scores,
normalised to the 0–100 scale; the handler returns 0 on an internal
exception. -/
def calculate_score (w : ScoreWeights) (t : Token) : ℚ :=
  if t.score_error then 0
  else
    let total :=
      score_market_cap t * w.market_cap +
      score_volume_growth t * w.volume_growth +
      score_liquidity_lock t * w.liquidity_lock +
      score_contract_security t * w.contract_security +
      score_whale_activity t * w.whale_activity +
      score_social_signals t * w.social_signals
    min 100 (max 0 (total * 100))

/-- Stable insertion into a descending list: the new element goes after
every already-present element of equal or larger key. -/
def insert_desc (key : Token → ℚ) (t : Token) : List Token → List Token
  | [] => [t]
  | h :: rest =>
    if key h < key t then t :: h :: rest else h :: insert_desc key t rest

/-- Stable descending sort by key (the output of Python
`list.sort(key=..., reverse=True)`, which is stable). -/
def sort_desc (key : Token → ℚ) (l : List Token) : List Token :=
  l.foldl (fun acc t => insert_desc key t acc) []

/-- `TokenScorer.score_tokens` as written in the source: it accepts no
threshold parameter and filters against the hard-coded
`config.SCORE_THRESHOLD`. -/
def score_tokens (w : ScoreWeights) (tokens : List Token) : List Token :=
  sort_desc (calculate_score w)
    (tokens.filter (fun t => decide (calculate_score w t ≥ SCORE_THRESHOLD)))

/-- The scorer batch operation as the specification describes it (and as the
caller `run_scan_cycle` invokes it): the threshold is a parameter, and the
retained tokens are those whose score reaches it. -/
def score_tokens_spec (w : ScoreWeights) (threshold : ℚ)
    (tokens : List Token) : List Token :=
  sort_desc (calculate_score w)
    (tokens.filter (fun t => decide (calculate_score w t ≥ threshold)))

/-! ### Concrete score of the base token -/

theorem baseToken_score :
    calculate_score SCORE_WEIGHTS baseToken = 1683/38 := by
  have e1 : ¬("" : String) = "dexscreener" := by decide
  have e2 : ¬("" : String) = "coingecko" := by decide
  have e3 : ¬("" : String) = "coingecko_detailed" := by decide
  have e4 : ¬("" : String) = "mock_data" := by decide
  have h1 : containsSubLower "" "trending" = false := by decide
  have h2 : containsSubLower "" "detailed" = false := by decide
  have hmc : score_market_cap baseToken = 21/38 := by
    simp only [score_market_cap, baseToken, mcap0, MIN_MARKET_CAP,
      MAX_MARKET_CAP]
    norm_num
  have hvg : score_volume_growth baseToken = 1/2 := by
    simp only [score_volume_growth, baseToken, mcap1]
    norm_num
  have hliq : score_liquidity_lock baseToken = 2/5 := by
    simp only [score_liquidity_lock, baseToken, mcap1]
    norm_num
  have hcs : score_contract_security baseToken = 1/5 := by
    simp only [score_contract_security, baseToken, trending_or_detailed,
      h1, h2, e1, e2, e3, e4]
    norm_num
  have hwh : score_whale_activity baseToken = 3/5 := by
    simp only [score_whale_activity, baseToken, mcap1, WHALE_THRESHOLD]
    norm_num
  have hss : score_social_signals baseToken = 3/10 := by
    simp only [score_social_signals, baseToken, h1, h2]
    norm_num
  have herr : baseToken.score_error = false := rfl
  simp only [calculate_score, herr, Bool.false_eq_true, if_false, hmc, hvg,
    hliq, hcs, hwh, hss, SCORE_WEIGHTS]
  norm_num

/-! ### Claim C6 -/

/-- C6: for every token and every weight configuration whose six weights sum
to 1, the composite score lies in [0, 100]. -/
theorem calculate_score_bounded (w : ScoreWeights) (t : Token)
    (_hsum : w.market_cap + w.volume_growth + w.liquidity_lock +
      w.contract_security + w.whale_activity + w.social_signals = 1) :
    0 ≤ calculate_score w t ∧ calculate_score w t ≤ 100 := by
  unfold calculate_score
  cases he : t.score_error
  · simp only [Bool.false_eq_true, if_false]
    exact ⟨le_min (by norm_num) (le_max_left _ _), min_le_left _ _⟩
  · simp only [if_true]
    norm_num

/-- Witness for C6: the shipped weight configuration sums to 1 and the base
token's score is within bounds. -/
theorem calculate_score_bounded_witness :
    SCORE_WEIGHTS.market_cap + SCORE_WEIGHTS.volume_growth +
        SCORE_WEIGHTS.liquidity_lock + SCORE_WEIGHTS.contract_security +
        SCORE_WEIGHTS.whale_activity + SCORE_WEIGHTS.social_signals = 1 ∧
      (0 ≤ calculate_score SCORE_WEIGHTS baseToken ∧
        calculate_score SCORE_WEIGHTS baseToken ≤ 100) :=
  ⟨by norm_num [SCORE_WEIGHTS],
   calculate_score_bounded SCORE_WEIGHTS baseToken (by norm_num [SCORE_WEIGHTS])⟩

/-! ### Claim C1 -/

/-- C1 (code bug): `score_tokens` accepts no threshold parameter — it filters
against the hard-coded `config.SCORE_THRESHOLD = 45` — although its only
caller, `run_scan_cycle`, passes the profile threshold as a second argument
(which raises `TypeError` at run time). Concretely: `baseToken` scores
1683/38 ≈ 44.3; under the aggressive profile threshold 35 the specified
operation keeps it, while the source operation drops it. -/
theorem score_tokens_threshold_mismatch :
    score_tokens SCORE_WEIGHTS [baseToken] = [] ∧
      score_tokens_spec SCORE_WEIGHTS 35 [baseToken] = [baseToken] := by
  constructor
  · have hd : decide (calculate_score SCORE_WEIGHTS baseToken ≥
        SCORE_THRESHOLD) = false := by
      rw [baseToken_score]
      norm_num [SCORE_THRESHOLD]
    simp [score_tokens, List.filter, hd, sort_desc]
  · have hd : decide (calculate_score SCORE_WEIGHTS baseToken ≥ (35 : ℚ)) =
        true := by
      rw [baseToken_score]
      norm_num
    simp [score_tokens_spec, List.filter, hd, sort_desc, insert_desc]

/-! ## RugPullDetector (`rug_detector.py`)

Interpolated numbers in the factor message strings are abstracted to the
fixed message text; nothing in the analysis logic reads these strings. -/

def suspicious_names : List String :=
  ["safemoon", "babydoge", "elonmusk", "dogelon", "shibainu", "floki",
   "moon", "safe", "baby"]

def scam_symbols : List String := ["SCAM", "RUG", "FAKE", "TEST", "SPAM"]

def red_flag_domains : List String :=
  ["bit.ly", "tinyurl.com", "t.me", "telegram.me"]

def good_domains : List String := [".com", ".org", ".net", ".io", ".fi", ".xyz"]

def audit_firms : List String :=
  ["certik", "hacken", "slowmist", "quantstamp", "consensys"]

def professional_words : List String :=
  ["protocol", "network", "chain", "dao", "defi"]

/-- The dictionary each `_analyze_*` helper returns. -/
structure AnalysisPart where
  score_adjustment : Int
  risk_factors : List String
  legitimacy_factors : List String
deriving DecidableEq

/-- `RugPullDetector._analyze_contract`. Note the early return: with no
contract address the verified/age/proxy checks are skipped entirely. -/
def analyze_contract (t : Token) : AnalysisPart :=
  if t.contract_address = "" then
    { score_adjustment := -20
      risk_factors := ["No contract address available"]
      legitimacy_factors := [] }
  else
    let v : AnalysisPart :=
      if t.verified then ⟨10, [], ["Contract is verified"]⟩
      else ⟨-15, ["Contract not verified"], []⟩
    let a : AnalysisPart :=
      match t.age_days with
      | none => ⟨0, [], []⟩
      | some d =>
        if d < 1 then ⟨-25, ["Token created less than 24 hours ago"], []⟩
        else if d < 7 then ⟨-10, ["Token less than 1 week old"], []⟩
        else if d > 30 then ⟨5, [], ["Token exists for " ++ toString d ++ " days"]⟩
        else ⟨0, [], []⟩
    let p : AnalysisPart :=
      if t.is_proxy then ⟨-5, ["Uses proxy contract pattern"], []⟩ else ⟨0, [], []⟩
    { score_adjustment := v.score_adjustment + a.score_adjustment + p.score_adjustment
      risk_factors := v.risk_factors ++ a.risk_factors ++ p.risk_factors
      legitimacy_factors :=
        v.legitimacy_factors ++ a.legitimacy_factors ++ p.legitimacy_factors }

/-- `RugPullDetector._analyze_liquidity`. Early return when no liquidity. -/
def analyze_liquidity (t : Token) : AnalysisPart :=
  if t.liquidity_usd ≤ 0 then
    ⟨-15, ["No liquidity information available"], []⟩
  else
    let ratioPart : AnalysisPart :=
      if mcap0 t > 0 then
        let r := t.liquidity_usd / mcap0 t
        if r < 1/20 then ⟨-20, ["Very low liquidity ratio"], []⟩
        else if r < 1/10 then ⟨-10, ["Low liquidity ratio"], []⟩
        else if r > 3/10 then ⟨10, [], ["Good liquidity ratio"]⟩
        else ⟨0, [], []⟩
      else ⟨0, [], []⟩
    let absPart : AnalysisPart :=
      if t.liquidity_usd < 1000 then ⟨-25, ["Very low liquidity"], []⟩
      else if t.liquidity_usd < 5000 then ⟨-10, ["Low liquidity"], []⟩
      else if t.liquidity_usd > 50000 then ⟨5, [], ["Good liquidity"]⟩
      else ⟨0, [], []⟩
    let lockPart : AnalysisPart :=
      if t.liquidity_locked then ⟨15, [], ["Liquidity is locked"]⟩
      else if containsSubLower t.additional_info "lock" then
        ⟨10, [], ["Liquidity lock mentioned"]⟩
      else ⟨-10, ["No liquidity lock information"], []⟩
    { score_adjustment := ratioPart.score_adjustment + absPart.score_adjustment +
        lockPart.score_adjustment
      risk_factors := ratioPart.risk_factors ++ absPart.risk_factors ++
        lockPart.risk_factors
      legitimacy_factors := ratioPart.legitimacy_factors ++
        absPart.legitimacy_factors ++ lockPart.legitimacy_factors }

/-- The suspicious-name-fragment matches (each one penalises −15). -/
def susp_matches (t : Token) : List String :=
  suspicious_names.filter
    (fun p => containsSubLower t.name p || containsSubLower t.symbol p)

/-- The scam-symbol denylist matches (each one penalises −30). -/
def scam_matches (t : Token) : List String :=
  scam_symbols.filter (fun p => containsSubLower t.symbol p)

/-- How many scam-symbol entries the (lowercased) symbol contains. -/
def scam_count (t : Token) : Nat := (scam_matches t).length

/-- `re.search` for three consecutive code points satisfying `p`. -/
def hasRun3 (p : Nat → Bool) : List Nat → Bool
  | a :: b :: c :: rest => (p a && p b && p c) || hasRun3 p (b :: c :: rest)
  | _ => false

/-- Code point of a decimal digit (regex class `[0-9]`). -/
def isDigitCode (n : Nat) : Bool := decide (48 ≤ n ∧ n ≤ 57)

/-- Code point outside `[a-zA-Z0-9\s]` (the special-character class). -/
def isSpecialCode (n : Nat) : Bool :=
  !(decide ((48 ≤ n ∧ n ≤ 57) ∨ (97 ≤ n ∧ n ≤ 122) ∨ (65 ≤ n ∧ n ≤ 90) ∨
      n = 32 ∨ n = 9 ∨ n = 10 ∨ n = 13 ∨ n = 11 ∨ n = 12))

/-- `re.search([0-9]{3,}) or re.search([^a-zA-Z0-9\s]{3,})` on the name. -/
def name_has_excessive_run (t : Token) : Bool :=
  hasRun3 isDigitCode (lowerCodes t.name) ||
    hasRun3 isSpecialCode (lowerCodes t.name)

/-- Whether the name contains a professional keyword. -/
def has_professional_word (t : Token) : Bool :=
  professional_words.any (fun w => containsSubLower t.name w)

def name_run_adjustment (t : Token) : Int :=
  if name_has_excessive_run t then -10 else 0

def symbol_length_adjustment (t : Token) : Int :=
  if t.symbol.length > 10 then -5
  else if t.symbol.length < 2 then -10
  else 0

def professional_adjustment (t : Token) : Int :=
  if has_professional_word t then 5 else 0

/-- `RugPullDetector._analyze_token_name`. -/
def analyze_token_name (t : Token) : AnalysisPart :=
  { score_adjustment :=
      -15 * ((susp_matches t).length : Int) - 30 * (scam_count t : Int) +
        name_run_adjustment t + symbol_length_adjustment t +
        professional_adjustment t
    risk_factors :=
      (susp_matches t).map (fun p => "Suspicious name pattern: contains " ++ p)
        ++ (scam_matches t).map (fun p => "Scam symbol detected: " ++ p)
        ++ (if name_has_excessive_run t then
              ["Name contains excessive numbers or symbols"] else [])
        ++ (if t.symbol.length > 10 then ["Unusually long symbol"]
            else if t.symbol.length < 2 then ["Unusually short symbol"]
            else [])
    legitimacy_factors :=
      if has_professional_word t then ["Professional naming convention"] else [] }

/-- The name/symbol adjustment with the scam-symbol loop omitted — the
counterfactual "without that penalty" of Scenario C. -/
def name_adjustment_no_scam (t : Token) : Int :=
  -15 * ((susp_matches t).length : Int) + name_run_adjustment t +
    symbol_length_adjustment t + professional_adjustment t

/-- `RugPullDetector._analyze_trading_patterns`. -/
def analyze_trading_patterns (t : Token) : AnalysisPart :=
  let pump : AnalysisPart :=
    if t.price_change_1h > 500 then ⟨-20, ["Extreme price pump"], []⟩
    else if t.price_change_1h > 200 then ⟨-10, ["High price volatility"], []⟩
    else ⟨0, [], []⟩
  let vol : AnalysisPart :=
    if mcap0 t > 0 ∧ t.volume_24h > 0 then
      let r := t.volume_24h / mcap0 t
      if r > 5 then ⟨-15, ["Extremely high volume ratio"], []⟩
      else if r > 2 then ⟨-5, ["High volume ratio"], []⟩
      else if 1/10 ≤ r ∧ r ≤ 1 then ⟨5, [], ["Healthy volume ratio"]⟩
      else ⟨0, [], []⟩
    else ⟨0, [], []⟩
  let growth : AnalysisPart :=
    if 0 < t.price_change_24h ∧ t.price_change_24h ≤ 100 then
      ⟨5, [], ["Reasonable 24h growth"]⟩
    else if t.price_change_24h > 1000 then ⟨-25, ["Extreme price spike"], []⟩
    else ⟨0, [], []⟩
  { score_adjustment := pump.score_adjustment + vol.score_adjustment +
      growth.score_adjustment
    risk_factors := pump.risk_factors ++ vol.risk_factors ++ growth.risk_factors
    legitimacy_factors := pump.legitimacy_factors ++ vol.legitimacy_factors ++
      growth.legitimacy_factors }

/-- `RugPullDetector._analyze_social_presence`. The website containment
checks are case-sensitive in the source (no `.lower()` there); the audit-firm
check lowercases the audit text. -/
def analyze_social_presence (t : Token) : AnalysisPart :=
  let web : AnalysisPart :=
    if ¬t.website = "" then
      if red_flag_domains.any (fun d => containsSub t.website d) then
        ⟨-10, ["Uses suspicious domain for website"], []⟩
      else if good_domains.any (fun d => containsSub t.website d) then
        ⟨5, [], ["Has professional website"]⟩
      else ⟨0, [], []⟩
    else ⟨-5, ["No website provided"], []⟩
  let social : AnalysisPart :=
    match t.social_links_count with
    | none => ⟨0, [], []⟩
    | some n =>
      if n ≥ 3 then ⟨10, [], ["Good social presence"]⟩
      else if n ≥ 1 then ⟨5, [], ["Some social presence"]⟩
      else ⟨-10, ["No social media presence"], []⟩
  let audit : AnalysisPart :=
    if ¬t.audit_info = "" then
      if audit_firms.any (fun f => containsSubLower t.audit_info f) then
        ⟨20, [], ["Audited by recognized firm"]⟩
      else ⟨10, [], ["Has audit information"]⟩
    else ⟨0, [], []⟩
  { score_adjustment := web.score_adjustment + social.score_adjustment +
      audit.score_adjustment
    risk_factors := web.risk_factors ++ social.risk_factors ++ audit.risk_factors
    legitimacy_factors := web.legitimacy_factors ++ social.legitimacy_factors ++
      audit.legitimacy_factors }

/-- `max(0, min(100, x))`. -/
def clamp100 (x : Int) : Int := max 0 (min 100 x)

/-- Risk-level banding from the clamped score. -/
def risk_level_of (s : Int) : String :=
  if s ≥ 80 then "LOW"
  else if s ≥ 60 then "MEDIUM"
  else if s ≥ 40 then "HIGH"
  else "CRITICAL"

/-- `RugPullDetector._get_recommendation`. -/
def get_recommendation (s : Int) : String :=
  if s ≥ 80 then "SAFE - Low risk, suitable for investment"
  else if s ≥ 60 then "CAUTION - Medium risk, do your own research"
  else if s ≥ 40 then "HIGH RISK - Only for experienced traders"
  else if s ≥ 20 then "VERY HIGH RISK - Avoid unless expert"
  else "AVOID - Likely scam or rug pull"

/-- The result dictionary of `analyze_token_security`. -/
structure SecurityAnalysis where
  security_score : Int
  risk_level : String
  risk_factors : List String
  legitimacy_factors : List String
  is_likely_rug : Bool
  is_safe_to_trade : Bool
  recommendation : String
deriving DecidableEq

/-- The degraded result the top-level exception handler returns. -/
def failed_analysis : SecurityAnalysis :=
  { security_score := 0, risk_level := "UNKNOWN"
    risk_factors := ["Analysis failed"], legitimacy_factors := []
    is_likely_rug := true, is_safe_to_trade := false
    recommendation := "AVOID - Analysis failed" }

/-- The pre-clamp security score: 100 plus the five additive adjustments. -/
def security_score_raw (t : Token) : Int :=
  100 + (analyze_contract t).score_adjustment +
    (analyze_liquidity t).score_adjustment +
    (analyze_token_name t).score_adjustment +
    (analyze_trading_patterns t).score_adjustment +
    (analyze_social_presence t).score_adjustment

/-- `RugPullDetector.analyze_token_security`. -/
def analyze_token_security (t : Token) : SecurityAnalysis :=
  if t.analysis_error then failed_analysis
  else
    let score := clamp100 (security_score_raw t)
    { security_score := score
      risk_level := risk_level_of score
      risk_factors := (analyze_contract t).risk_factors ++
        (analyze_liquidity t).risk_factors ++
        (analyze_token_name t).risk_factors ++
        (analyze_trading_patterns t).risk_factors ++
        (analyze_social_presence t).risk_factors
      legitimacy_factors := (analyze_contract t).legitimacy_factors ++
        (analyze_liquidity t).legitimacy_factors ++
        (analyze_token_name t).legitimacy_factors ++
        (analyze_trading_patterns t).legitimacy_factors ++
        (analyze_social_presence t).legitimacy_factors
      is_likely_rug := decide (score < 30)
      is_safe_to_trade := decide (score ≥ 60)
      recommendation := get_recommendation score }

/-- `RugPullDetector.is_token_safe`: its `except` clause is unreachable in
the embedding because `analyze_token_security` is total. -/
def is_token_safe (t : Token) (min_security_score : Int) : Bool :=
  let a := analyze_token_security t
  decide (a.security_score ≥ min_security_score) && !a.is_likely_rug

/-- The per-token security loop of `GemFinderBot.run_scan_cycle` (step 3):
since `is_token_safe` swallows every exception and returns `False`, the
loop keeps exactly the tokens for which it returns `True`, annotating them
with their analysis; the `except` branch that would retain a token marked
UNKNOWN can never run. -/
def security_stage (minScore : Int) (tokens : List Token) :
    List (Token × SecurityAnalysis) :=
  tokens.filterMap (fun t =>
    if is_token_safe t minScore then some (t, analyze_token_security t)
    else none)

/-! ### Claim C4 -/

/-- C4: for every token record — including the degraded error path — the
security analysis result satisfies `0 ≤ security_score ≤ 100`,
`is_likely_rug ↔ security_score < 30`, and
`is_safe_to_trade ↔ security_score ≥ 60`. -/
theorem security_analysis_clamp_and_flags (t : Token) :
    0 ≤ (analyze_token_security t).security_score ∧
      (analyze_token_security t).security_score ≤ 100 ∧
      ((analyze_token_security t).is_likely_rug = true ↔
        (analyze_token_security t).security_score < 30) ∧
      ((analyze_token_security t).is_safe_to_trade = true ↔
        60 ≤ (analyze_token_security t).security_score) := by
  unfold analyze_token_security
  cases he : t.analysis_error
  · simp only [Bool.false_eq_true, if_false]
    refine ⟨?_, ?_, ?_, ?_⟩
    · unfold clamp100; omega
    · unfold clamp100; omega
    · simp [decide_eq_true_eq]
    · simp [decide_eq_true_eq, ge_iff_le]
  · simp only [if_true, failed_analysis]
    norm_num

/-! ### Claim C5 -/

/-- C5: the analysis is total (a total function of the token record), and
whenever an internal exception occurs it returns exactly the degraded
result: score 0, risk level UNKNOWN, risk factors `["Analysis failed"]`,
no legitimacy factors, `is_likely_rug = true`, `is_safe_to_trade = false`. -/
theorem analysis_error_degraded (t : Token) (h : t.analysis_error = true) :
    analyze_token_security t =
      { security_score := 0, risk_level := "UNKNOWN"
        risk_factors := ["Analysis failed"], legitimacy_factors := []
        is_likely_rug := true, is_safe_to_trade := false
        recommendation := "AVOID - Analysis failed" } := by
  simp [analyze_token_security, h, failed_analysis]

/-- Witness for C5 at a concrete erroring token. -/
theorem analysis_error_degraded_witness :
    analyze_token_security { baseToken with analysis_error := true } =
      { security_score := 0, risk_level := "UNKNOWN"
        risk_factors := ["Analysis failed"], legitimacy_factors := []
        is_likely_rug := true, is_safe_to_trade := false
        recommendation := "AVOID - Analysis failed" } :=
  analysis_error_degraded { baseToken with analysis_error := true } rfl

/-! ### Claim C2 -/

/-- C2 (code bug): a surviving token whose security analysis errors
internally is NOT retained in the secure set — it is dropped. The errored
analysis is caught inside `analyze_token_security` (degraded result,
score 0, UNKNOWN) and inside `is_token_safe` (which returns `False` on any
exception), so the pipeline's retain-and-mark-UNKNOWN branch — whose inline
comment promises to "include token but mark as unanalyzed" — is
unreachable, and the errored token fails the gate. -/
theorem security_stage_drops_errored_token :
    (analyze_token_security { baseToken with analysis_error := true
      }).risk_level = "UNKNOWN" ∧
      security_stage 60 [{ baseToken with analysis_error := true }] = [] := by
  constructor
  · rfl
  · rfl

/-! ### Claim C9 -/

/-- C9: a token whose symbol contains a scam-symbol denylist entry receives
a −30 adjustment for that match (the name adjustment is the
scam-loop-free adjustment minus 30 per match, with at least one match), and
the final clamped score is at most 30 below — and never above — the final
score without that one penalty (whose pre-clamp value is `raw + 30`). -/
theorem scam_symbol_penalty (t : Token) (p : String)
    (he : t.analysis_error = false)
    (hp : p ∈ scam_symbols)
    (hm : containsSubLower t.symbol p = true) :
    1 ≤ scam_count t ∧
      (analyze_token_name t).score_adjustment =
        name_adjustment_no_scam t - 30 * (scam_count t : Int) ∧
      (analyze_token_security t).security_score ≤
        clamp100 (security_score_raw t + 30) ∧
      clamp100 (security_score_raw t + 30) - 30 ≤
        (analyze_token_security t).security_score := by
  have hscore : (analyze_token_security t).security_score =
      clamp100 (security_score_raw t) := by
    simp [analyze_token_security, he]
  refine ⟨?_, ?_, ?_, ?_⟩
  · have hmem : p ∈ scam_matches t := List.mem_filter.mpr ⟨hp, hm⟩
    exact List.length_pos.mpr (List.ne_nil_of_mem hmem)
  · unfold analyze_token_name name_adjustment_no_scam
    ring
  · rw [hscore]; unfold clamp100; omega
  · rw [hscore]; unfold clamp100; omega

/-- Witness for C9: the token with symbol `RUG`. -/
theorem scam_symbol_penalty_witness :
    1 ≤ scam_count { baseToken with symbol := "RUG" } ∧
      (analyze_token_name { baseToken with symbol := "RUG" }).score_adjustment =
        name_adjustment_no_scam { baseToken with symbol := "RUG" } -
          30 * (scam_count { baseToken with symbol := "RUG" } : Int) ∧
      (analyze_token_security { baseToken with symbol := "RUG"
        }).security_score ≤
        clamp100 (security_score_raw { baseToken with symbol := "RUG" } + 30) ∧
      clamp100 (security_score_raw { baseToken with symbol := "RUG" } + 30) -
          30 ≤
        (analyze_token_security { baseToken with symbol := "RUG"
          }).security_score :=
  scam_symbol_penalty { baseToken with symbol := "RUG" } "RUG" rfl
    (by decide) (by decide)

/-! ## TokenScanner._deduplicate_tokens (`scanner.py`)

The seen-sets hold lowercased identities; they are modelled as lists of
lowercased code sequences (`lowerCodes`), with membership for the Python
set-containment test. An empty identity (falsy string) neither causes a
skip nor is recorded. -/

/-- The loop of `_deduplicate_tokens`, with the two seen-sets explicit. -/
def dedup_go (seenA seenS : List (List Nat)) : List Token → List Token
  | [] => []
  | t :: rest =>
    let a := lowerCodes t.contract_address
    let s := lowerCodes t.symbol
    if ¬a = [] ∧ a ∈ seenA then dedup_go seenA seenS rest
    else if ¬s = [] ∧ s ∈ seenS then dedup_go seenA seenS rest
    else
      t :: dedup_go (if ¬a = [] then a :: seenA else seenA)
        (if ¬s = [] then s :: seenS else seenS) rest

/-- `TokenScanner._deduplicate_tokens`. -/
def deduplicate_tokens (tokens : List Token) : List Token :=
  dedup_go [] [] tokens

theorem dedup_go_cons (A S : List (List Nat)) (t : Token) (rest : List Token) :
    dedup_go A S (t :: rest) =
      if ¬lowerCodes t.contract_address = [] ∧
          lowerCodes t.contract_address ∈ A then dedup_go A S rest
      else if ¬lowerCodes t.symbol = [] ∧ lowerCodes t.symbol ∈ S then
        dedup_go A S rest
      else
        t :: dedup_go
          (if ¬lowerCodes t.contract_address = [] then
            lowerCodes t.contract_address :: A else A)
          (if ¬lowerCodes t.symbol = [] then lowerCodes t.symbol :: S else S)
          rest := rfl

theorem dedup_go_sublist (tokens : List Token) :
    ∀ A S, (dedup_go A S tokens).Sublist tokens := by
  induction tokens with
  | nil => intro A S; simp [dedup_go]
  | cons t rest ih =>
    intro A S
    rw [dedup_go_cons]
    by_cases h1 : ¬lowerCodes t.contract_address = [] ∧
        lowerCodes t.contract_address ∈ A
    · rw [if_pos h1]
      exact (ih A S).cons t
    · rw [if_neg h1]
      by_cases h2 : ¬lowerCodes t.symbol = [] ∧ lowerCodes t.symbol ∈ S
      · rw [if_pos h2]
        exact (ih A S).cons t
      · rw [if_neg h2]
        exact (ih _ _).cons₂ t

/-! ### Claim C10 -/

/-- C10: deduplication keeps the first occurrence per identity, keyed by
lowercase contract address and, independently, by lowercase symbol: the
output is a subsequence of the input (first-occurrence order preserved); a
token whose non-empty lowercase symbol is already seen is dropped — without
consulting its contract address — and likewise for a seen address; an
unseen token is kept, recording both of its non-empty identities. -/
theorem deduplicate_first_occurrence (tokens : List Token)
    (A S : List (List Nat)) (t : Token) (rest : List Token) :
    (deduplicate_tokens tokens).Sublist tokens ∧
      (¬lowerCodes t.symbol = [] → lowerCodes t.symbol ∈ S →
        dedup_go A S (t :: rest) = dedup_go A S rest) ∧
      (¬lowerCodes t.contract_address = [] →
        lowerCodes t.contract_address ∈ A →
        dedup_go A S (t :: rest) = dedup_go A S rest) ∧
      (¬(¬lowerCodes t.contract_address = [] ∧
          lowerCodes t.contract_address ∈ A) →
        ¬(¬lowerCodes t.symbol = [] ∧ lowerCodes t.symbol ∈ S) →
        dedup_go A S (t :: rest) =
          t :: dedup_go
            (if ¬lowerCodes t.contract_address = [] then
              lowerCodes t.contract_address :: A else A)
            (if ¬lowerCodes t.symbol = [] then
              lowerCodes t.symbol :: S else S) rest) := by
  refine ⟨dedup_go_sublist tokens [] [], ?_, ?_, ?_⟩
  · intro hne hmem
    rw [dedup_go_cons]
    by_cases h1 : ¬lowerCodes t.contract_address = [] ∧
        lowerCodes t.contract_address ∈ A
    · rw [if_pos h1]
    · rw [if_neg h1, if_pos ⟨hne, hmem⟩]
  · intro hne hmem
    rw [dedup_go_cons, if_pos ⟨hne, hmem⟩]
  · intro ha hs
    rw [dedup_go_cons, if_neg ha, if_neg hs]

/-- Two tokens with distinct, unseen contract addresses but the same symbol. -/
def tokenA : Token := { baseToken with contract_address := "0xAAA111" }

def tokenB : Token := { baseToken with contract_address := "0xBBB222" }

/-- Witness for C10: the second token is dropped on its symbol alone, even
though its address is new, and the output keeps first-occurrence order. -/
theorem deduplicate_first_occurrence_witness :
    (deduplicate_tokens [tokenA, tokenB]).Sublist [tokenA, tokenB] ∧
      dedup_go [] [lowerCodes "gem"] [tokenB] =
        dedup_go [] [lowerCodes "gem"] [] ∧
      deduplicate_tokens [tokenA, tokenB] = [tokenA] :=
  ⟨(deduplicate_first_occurrence [tokenA, tokenB] [] [] tokenA []).1,
   (deduplicate_first_occurrence [tokenB] [] [lowerCodes "gem"] tokenB []).2.1
     (by decide) (by decide),
   by decide⟩

end GemFinder
